import Mathlib

/-!
Verification development for the Anker Solix config flow
(custom_components/anker_solix/config_flow.py).

The Python module implements a setup wizard (credential step and options
step), an options editor, and a device reconciliation routine
(async_check_and_remove_devices). The definitions below are a shallow
embedding of that module: dictionaries become lists of pairs or
structures, Python sets become Finset String, exceptions become an
inductive error type threaded through an explicit result type, and the
host registry mutation becomes the ordered list of removal operations
the routine performs.
-/

namespace AnkerSolix

/-! ### Tag constants

Modelled from the spec: the SolixDeviceType enumeration and ApiCategories
constants are imported in config_flow.py from the solixapi.api module,
which is not part of the analysed sources. They are distinct string tags;
only their identity and distinctness matter to the logic below. -/

namespace SolixDeviceType

/-- Modelled from the spec: device type tag for whole systems. -/
def SYSTEM : String := "system"

/-- Modelled from the spec: device type tag for solarbanks. -/
def SOLARBANK : String := "solarbank"

/-- Modelled from the spec: device type tag for inverters. -/
def INVERTER : String := "inverter"

/-- Modelled from the spec: device type tag for portable power stations. -/
def PPS : String := "pps"

/-- Modelled from the spec: device type tag for power panels. -/
def POWERPANEL : String := "powerpanel"

end SolixDeviceType

namespace ApiCategories

/-- Modelled from the spec: category tag for site price data. -/
def site_price : String := "site_price"

/-- Modelled from the spec: solarbank subcategory tag for energy stats. -/
def solarbank_energy : String := "solarbank_energy"

/-- Modelled from the spec: solarbank subcategory tag for cutoff settings. -/
def solarbank_cutoff : String := "solarbank_cutoff"

/-- Modelled from the spec: solarbank subcategory tag for fittings. -/
def solarbank_fittings : String := "solarbank_fittings"

/-- Modelled from the spec: solarbank subcategory tag for solar info. -/
def solarbank_solar_info : String := "solarbank_solar_info"

/-- Modelled from the spec: category tag for device auto upgrade settings. -/
def device_auto_upgrade : String := "device_auto_upgrade"

end ApiCategories

/-! ### Exclusion set expansion (config_flow.py lines 355-384)

The routine first widens the excluded category set so that excluding a
subcategory also excludes the owning device type. The three checks run
sequentially on the current value of the set, exactly as in the code. -/

/-- The literal set of lines 358-365: subcategories for System devices. -/
def sysTrigger : Finset String :=
  {ApiCategories.site_price, SolixDeviceType.SOLARBANK, SolixDeviceType.INVERTER,
    SolixDeviceType.PPS, SolixDeviceType.POWERPANEL}

/-- The literal set of lines 368-373: subcategories for Solarbank only. -/
def sbTrigger : Finset String :=
  {ApiCategories.solarbank_energy, ApiCategories.solarbank_cutoff,
    ApiCategories.solarbank_fittings, ApiCategories.solarbank_solar_info}

/-- The literal set of lines 379-384: device types excluded by the
auto-upgrade category. -/
def autoAdd : Finset String :=
  {SolixDeviceType.SOLARBANK, SolixDeviceType.INVERTER, SolixDeviceType.PPS,
    SolixDeviceType.POWERPANEL}

/-- Embedding of the expansion block guarded by the truthiness test
`if excluded:` (lines 357-384); an empty set is falsy in Python, so the
block is skipped for it. -/
def expandExcluded (excluded : Finset String) : Finset String :=
  if excluded.Nonempty then
    let ex1 :=
      if (sysTrigger ∩ excluded).Nonempty then excluded ∪ {SolixDeviceType.SYSTEM}
      else excluded
    let ex2 :=
      if (sbTrigger ∩ ex1).Nonempty then ex1 ∪ {SolixDeviceType.SOLARBANK}
      else ex1
    if (({ApiCategories.device_auto_upgrade} : Finset String) ∩ ex2).Nonempty then
      ex2 ∪ autoAdd
    else ex2
  else excluded

/-! ### Data model for the reconciliation scan -/

/-- A device registry entry as used by the routine: only its registry id
and serial number are read. -/
structure DevEntry where
  id : String
  serial_number : String
deriving DecidableEq, Repr

/-- A configuration entry of the domain as used by the routine: entry id
to look up registered devices, unique id (lower-cased account username)
and title. -/
structure CfgEntry where
  entry_id : String
  unique_id : String
  title : String
deriving DecidableEq, Repr

/-- One record in the fetched api data; only its optional type attribute
is read by the routine. -/
structure ApiRecord where
  type : Option String
deriving DecidableEq, Repr

/-- The fetched api data mapping of serial or site id to record
(self.client.api.sites merged with devices). -/
def ApiData := List (String × ApiRecord)
deriving DecidableEq

/-- Membership test of the Python expression `serial in apidata`. -/
def serialMem (apidata : ApiData) (s : String) : Bool :=
  (List.any apidata fun kv => kv.1 == s)

/-- Embedding of `apidata.get(serial, dict()).get("type")`: the type
attribute of the record stored under the serial, when both exist. -/
def apiGetType (apidata : ApiData) (s : String) : Option String :=
  (((List.find? (fun kv => kv.1 == s) apidata).map Prod.snd).bind ApiRecord.type)

/-- Embedding of `not (set-of-type - excluded)` from lines 402-403: the
singleton difference is empty exactly when the type value is a member of
the excluded set; a missing type (Python None) is never a member. -/
def typeIsExcluded (excluded : Finset String) : Option String → Bool
  | some t => decide (t ∈ excluded)
  | none => false

/-- The obsolescence test of lines 400-404: serial absent from the api
data, or (excluded truthy and the recorded type inside the excluded
set). -/
def isObsolete (apidata : ApiData) (excluded : Finset String) (s : String) : Bool :=
  !serialMem apidata s ||
    (decide excluded.Nonempty && typeIsExcluded excluded (apiGetType apidata s))

/-- The host state read by the routine: the ordered configuration entries
of the domain and, per entry id, the ordered device registry entries. -/
structure HassState where
  cfg_entries : List CfgEntry
  registry : List (String × List DevEntry)
deriving DecidableEq

/-- Embedding of `dr.async_entries_for_config_entry` restricted to what
the routine reads. -/
def devsFor (st : HassState) (eid : String) : List DevEntry :=
  (((List.find? (fun kv => kv.1 == eid) st.registry).map Prod.snd).getD [])

/-- Insertion into the Python dict `obsolete_user_devs` modelled as an
association list: an existing key keeps its position and gets the new
value, a new key is appended. -/
def dictInsert (l : List (String × String)) (k v : String) : List (String × String) :=
  if List.any l (fun p => p.1 == k) then
    List.map (fun p => if p.1 == k then (k, v) else p) l
  else l ++ [(k, v)]

/-- The inner loop of lines 392-405 over the device entries of one
configuration entry, threading the obsolete dict and returning early on a
cross-account conflict. -/
def scanDevices (u : String) (apidata : ApiData) (excluded : Finset String)
    (cfg : CfgEntry) :
    List DevEntry → List (String × String) → Option CfgEntry × List (String × String)
  | [], ob => (none, ob)
  | d :: rest, ob =>
    if u != "" && u != cfg.unique_id then
      if serialMem apidata d.serial_number then (some cfg, ob)
      else scanDevices u apidata excluded cfg rest ob
    else
      if isObsolete apidata excluded d.serial_number then
        scanDevices u apidata excluded cfg rest (dictInsert ob d.id d.serial_number)
      else scanDevices u apidata excluded cfg rest ob

/-- The outer loop of lines 388-405 over the configuration entries,
propagating an early return. -/
def scanEntries (u : String) (apidata : ApiData) (excluded : Finset String) :
    List (CfgEntry × List DevEntry) → List (String × String) →
      Option CfgEntry × List (String × String)
  | [], ob => (none, ob)
  | (c, devs) :: rest, ob =>
    match scanDevices u apidata excluded c devs ob with
    | (some x, ob2) => (some x, ob2)
    | (none, ob2) => scanEntries u apidata excluded rest ob2

/-- The entries paired with their registered devices, in scan order. -/
def entryPairs (st : HassState) : List (CfgEntry × List DevEntry) :=
  List.map (fun c => (c, devsFor st c.entry_id)) st.cfg_entries

/-- The credential step input dictionary, restricted to the keys the code
reads. Missing keys are the none values. -/
structure CredInput where
  username : Option String
  password : String
  countryCode : String
  acceptTerms : Bool
deriving DecidableEq

/-- Lower-casing of a string, character by character (the ASCII fragment
of the Python str.lower method, which is all the flow relies on for the
usernames it compares). -/
def strLower (s : String) : String := String.mk (List.map Char.toLower s.data)

/-- Embedding of `str(user_input.get(CONF_USERNAME) or "").lower()`
(line 394): a missing or empty username yields the empty string. -/
def usernameOf (i : CredInput) : String := strLower (i.username.getD "")

/-- Observable outcome of the reconciliation routine: the returned
conflicting entry when there is one, and the ordered sequence of
(registry id, serial) removal operations performed on the device
registry. -/
structure CheckResult where
  conflict : Option CfgEntry
  removed : List (String × String)
deriving DecidableEq

/-- Embedding of async_check_and_remove_devices (lines 347-420). The
early `return cfg_entry` at line 398 exits before the removal loop at
lines 409-419, so a conflict outcome performs no removals; otherwise the
removal loop walks the obsolete dict in insertion order. A missing
excluded argument behaves like the empty set, since Python treats both
None and the empty set as falsy in every use of the parameter. -/
def async_check_and_remove_devices (st : HassState) (user_input : CredInput)
    (apidata : ApiData) (excluded : Option (Finset String)) : CheckResult :=
  let ex := expandExcluded (excluded.getD ∅)
  match scanEntries (usernameOf user_input) apidata ex (entryPairs st) [] with
  | (some c, _) => ⟨some c, []⟩
  | (none, ob) => ⟨none, ob⟩

/-- The device pairs contributed by one configuration entry. -/
def pairF (p : CfgEntry × List DevEntry) : List (CfgEntry × DevEntry) :=
  List.map (fun d => (p.1, d)) p.2

/-- All (entry, device) pairs in the order the scan visits them. -/
def scanPairs (st : HassState) : List (CfgEntry × DevEntry) :=
  (entryPairs st).flatMap pairF

/-- The cross-account conflict test of lines 393-397 for one pair. -/
def conflictB (u : String) (apidata : ApiData) (q : CfgEntry × DevEntry) : Bool :=
  (u != "" && u != q.1.unique_id) && serialMem apidata q.2.serial_number

/-- The other-account guard of lines 393-395 for one entry. -/
def otherB (u : String) (c : CfgEntry) : Bool :=
  u != "" && u != c.unique_id

/-- The obsolete-marking fold performed by the same-account branch of the
scan for one entry (lines 399-405), as a fold over its device entries. -/
def markFold (apidata : ApiData) (excluded : Finset String) (devs : List DevEntry)
    (ob : List (String × String)) : List (String × String) :=
  List.foldl
    (fun acc d =>
      if isObsolete apidata excluded d.serial_number then
        dictInsert acc d.id d.serial_number
      else acc)
    ob devs

/-! ### Flow step embedding (config_flow.py lines 57-256)

Dictionary keys and link constants are imported from the const module,
which is not part of the analysed sources; they are modelled as distinct
opaque strings, their exact values are immaterial to the control flow. -/

/-- Modelled from the spec: form key for the accept-terms checkbox. -/
def ACCEPT_TERMS : String := "accept_terms"

/-- Modelled from the spec: key for the error detail placeholder. -/
def ERROR_DETAIL : String := "error_detail"

/-- Modelled from the spec: placeholder key naming the account sharing a
device. -/
def SHARED_ACCOUNT : String := "shared_account"

/-- Modelled from the spec: placeholder key for the terms link. -/
def TERMS_LINK : String := "terms_link"

/-- Modelled from the spec: the terms and conditions link value. -/
def TC_LINK : String := "tc_link_url"

/-- Modelled from the spec: options key for the test mode toggle. -/
def TESTMODE : String := "testmode"

/-- Modelled from the spec: options key for the test folder selection. -/
def TESTFOLDER : String := "testfolder"

/-- Modelled from the spec: data key for the examples folder path. -/
def EXAMPLESFOLDER : String := "examplesfolder"

/-- The host platform key for the username field. -/
def CONF_USERNAME : String := "username"

/-- The fixed local example-folder path stored into the entry data at
line 149: os.path.join(os.path.dirname(file), EXAMPLESFOLDER), a value
fixed at handler construction. -/
def examplesFolderPath : String := "custom_components/anker_solix/examples"

/-- The exceptions distinguished by the except clauses of lines 162-179,
together with the AbortFlow exception raised by the host helper
_abort_if_unique_id_configured and any remaining exception; all of these
derive from the Python Exception class, so the final broad clause catches
every kind not caught earlier. -/
inductive ApiExc where
  | authError (msg : String)
  | commError (msg : String)
  | retryError (msg : String)
  | clientError (msg : String)
  | abortFlow (msg : String)
  | otherError (msg : String)
deriving DecidableEq

/-- The api client as read by the flow: only the display name
self.client.api.nickname is consumed. -/
structure Client where
  nickname : String
deriving DecidableEq

/-- Environment of one credential submission: host state, the outcome of
_authenticate_client, the exception update_sites raises if any, and the
merged sites and devices mapping it leaves behind on success. -/
structure FlowEnv where
  hass : HassState
  authResult : Except ApiExc Client
  sitesError : Option ApiExc
  apidata : ApiData

/-- The entry data persisted by the wizard: the submitted credential
fields (self._data = user_input) plus the examples folder path added at
line 149. -/
structure EntryData where
  username : Option String
  password : String
  countryCode : String
  acceptTerms : Bool
  examplesfolder : String
deriving DecidableEq

/-- Builder for the persisted data of lines 147-149. -/
def dataWithExamples (i : CredInput) : EntryData :=
  ⟨i.username, i.password, i.countryCode, i.acceptTerms, examplesFolderPath⟩

/-- The options bag submitted in an options form. The test mode toggle
and test folder keys are read by the validation; all remaining keys are
carried through opaquely. A missing test mode key and the stored False
are both falsy and are merged into the false value; the test folder is
none when the key is missing. -/
structure OptionsBag where
  testmode : Bool
  testfolder : Option String
  rest : List (String × String)
deriving DecidableEq

/-- Truthiness of `self._options.get(TESTFOLDER)`: a present, non-empty
folder name. -/
def testfolderTruthy (o : OptionsBag) : Bool :=
  match o.testfolder with
  | some s => s != ""
  | none => false

/-- Result of a config flow step: a redisplayed form with its errors and
description placeholders, or a created entry. -/
inductive ConfigFlowResult where
  | showForm (step_id : String) (errors : List (String × String))
      (placeholders : List (String × String))
  | createEntry (title : Option String) (data : EntryData) (options : OptionsBag)
deriving DecidableEq

/-- Result of an options flow step (async_create_entry there carries the
submitted bag as data and an empty title). -/
inductive OptionsFlowResult where
  | showForm (step_id : String) (errors : List (String × String))
  | createEntry (title : String) (data : OptionsBag)
deriving DecidableEq

/-- Flow handler state carried from the credential step into the options
step: self.client and self._data. -/
structure FlowState where
  client : Option Client
  data : EntryData
deriving DecidableEq

/-- Outcome of one call of async_step_user: the flow result, the handler
state when the step advanced to the options form, and whether the
external authenticate and update_sites calls were made. -/
structure StepUserOut where
  result : ConfigFlowResult
  next : Option FlowState
  authCalled : Bool
  sitesCalled : Bool
deriving DecidableEq

/-- The placeholders dict is seeded with the terms link (line 121) before
any branch runs. -/
def basePlaceholders : List (String × String) := [(TERMS_LINK, TC_LINK)]

/-- The error key chosen by the except chain of lines 162-179: the three
distinguished client exceptions map to their own categories and every
other exception, AbortFlow included, falls into the broad final clause. -/
def excErrorKey : ApiExc → String
  | .authError _ => "auth"
  | .commError _ => "connection"
  | .retryError _ => "exceeded"
  | .clientError _ => "unknown"
  | .abortFlow _ => "unknown"
  | .otherError _ => "unknown"

/-- The human-readable detail placed into the placeholders by the except
chain: the exception text for the three distinguished kinds, and the
formatted exception type and text for the broad clause (lines 177-179). -/
def excDetail : ApiExc → String
  | .authError m => m
  | .commError m => m
  | .retryError m => m
  | .clientError m => "Exception AnkerSolixApiClientError: " ++ m
  | .abortFlow m => "Exception AbortFlow: " ++ m
  | .otherError m => "Exception: " ++ m

/-- The credential form redisplayed after a caught exception. -/
def errorForm (e : ApiExc) : ConfigFlowResult :=
  .showForm "user" [("base", excErrorKey e)]
    (basePlaceholders ++ [(ERROR_DETAIL, excDetail e)])

/-- Embedding of async_step_user (lines 84-186). The try block sets the
unique id to the lower-cased username; when an entry of the domain
already carries that unique id, _abort_if_unique_id_configured raises
AbortFlow, which the broad except clause of line 174 catches, so the
submission ends in the redisplayed credential form with the unknown
error. Otherwise the client is authenticated, sites are fetched, the
reconciliation routine runs with no exclusions, and the step either
reports a duplicate-device error or advances to the options form. -/
def async_step_user (env : FlowEnv) (user_input : Option CredInput) : StepUserOut :=
  match user_input with
  | none => ⟨.showForm "user" [] basePlaceholders, none, false, false⟩
  | some i =>
    if !i.acceptTerms then
      ⟨.showForm "user" [(ACCEPT_TERMS, ACCEPT_TERMS)] basePlaceholders,
        none, false, false⟩
    else
      let uid := usernameOf i
      if List.any env.hass.cfg_entries (fun c => c.unique_id == uid) then
        ⟨errorForm (.abortFlow "already_configured"), none, false, false⟩
      else
        match env.authResult with
        | .error e => ⟨errorForm e, none, true, false⟩
        | .ok client =>
          match env.sitesError with
          | some e => ⟨errorForm e, none, true, true⟩
          | none =>
            match async_check_and_remove_devices env.hass i env.apidata none with
            | ⟨some cfg, _⟩ =>
              ⟨.showForm "user" [(CONF_USERNAME, "duplicate_devices")]
                  (basePlaceholders ++
                    [(CONF_USERNAME, i.username.getD ""), (SHARED_ACCOUNT, cfg.title)]),
                none, true, true⟩
            | ⟨none, _⟩ =>
              ⟨.showForm "user_options" [] [],
                some ⟨some client, dataWithExamples i⟩, true, true⟩

/-- Embedding of async_step_user_options (lines 188-213): a valid
submission creates the entry with title from the authenticated client
display name, falling back to the stored username; test mode without a
folder redisplays the options form with the folder error. -/
def async_step_user_options (st : FlowState) (user_options : Option OptionsBag) :
    ConfigFlowResult :=
  match user_options with
  | some o =>
    if testfolderTruthy o || !o.testmode then
      .createEntry
        (match st.client with
          | some c => some c.nickname
          | none => st.data.username)
        st.data o
    else .showForm "user_options" [(TESTFOLDER, "folder_invalid")] []
  | none => .showForm "user_options" [] []

/-- Embedding of AnkerSolixOptionsFlowHandler.async_step_init
(lines 234-256): same validation, persisting the submitted bag as the
entry data with an empty title. -/
def optionsFlow_step_init (_entryOptions : OptionsBag) (user_input : Option OptionsBag) :
    OptionsFlowResult :=
  match user_input with
  | some o =>
    if testfolderTruthy o || !o.testmode then .createEntry "" o
    else .showForm "init" [(TESTFOLDER, "folder_invalid")]
  | none => .showForm "init" []

/-- The wizard composition: a credential submission followed, when the
flow advanced, by an options submission against the stored handler
state. -/
def runWizard (env : FlowEnv) (cred : CredInput) (opts : OptionsBag) :
    ConfigFlowResult :=
  let s := async_step_user env (some cred)
  match s.next with
  | some st => async_step_user_options st (some opts)
  | none => s.result

/-! ### Concrete instances used in witnesses and counterexamples -/

/-- Example configuration entry of account a@x.com. -/
def entA : CfgEntry := ⟨"1", "a@x.com", "Account A"⟩

/-- Example configuration entry of account b@y.com. -/
def entB : CfgEntry := ⟨"2", "b@y.com", "Account B"⟩

/-- Credential submission of account a@x.com with terms accepted. -/
def credA : CredInput := ⟨some "a@x.com", "pw", "DE", true⟩

/-- Host state for the marked-but-not-removed scenario: the candidate
account owns device d1 (serial SB1), another account owns device d2
(serial SX1). -/
def stCross : HassState :=
  ⟨[entA, entB], [("1", [⟨"d1", "SB1"⟩]), ("2", [⟨"d2", "SX1"⟩])]⟩

/-- Fetched data containing only the serial owned by the other account. -/
def apiCross : ApiData := [("SX1", ⟨some "solarbank"⟩)]

/-- Host state with one entry of the candidate account owning devices
dA, dB and dC. -/
def stABC : HassState :=
  ⟨[entA], [("1", [⟨"dA", "SA"⟩, ⟨"dB", "SB"⟩, ⟨"dC", "SC"⟩])]⟩

/-- Fetched data for the A-B-C scenario: serial SA present with a
non-excluded type, SB absent, SC present with the solarbank type. -/
def apiABC : ApiData := [("SA", ⟨some "inverter"⟩), ("SC", ⟨some "solarbank"⟩)]

/-- Host state owned by another account, for the empty-username scenario. -/
def stOther : HassState := ⟨[entB], [("2", [⟨"dX", "SX"⟩])]⟩

/-- Credential submission with the username key missing. -/
def credNone : CredInput := ⟨none, "pw", "DE", true⟩

/-- Environment with the candidate username already configured. -/
def envDup : FlowEnv := ⟨⟨[entA], []⟩, .ok ⟨"Nick"⟩, none, []⟩

/-- Credential submission matching the configured account up to case. -/
def credDup : CredInput := ⟨some "A@x.com", "pw", "DE", true⟩

/-- Environment for a successful wizard run: nothing configured yet and
authentication succeeds. -/
def envOk : FlowEnv := ⟨⟨[], []⟩, .ok ⟨"Nick Name"⟩, none, []⟩

/-- Options bag with test mode off. -/
def optsOff : OptionsBag := ⟨false, none, [("scan_interval", "60")]⟩

/-- Options bag with test mode on and no folder selected. -/
def optsBad : OptionsBag := ⟨true, none, []⟩

/-- Environment whose authentication fails with an authentication error. -/
def envAuthFail : FlowEnv :=
  ⟨⟨[], []⟩, .error (.authError "bad credentials"), none, []⟩

/-! ### Helper lemmas about the exclusion expansion -/

theorem singleton_inter_nonempty_iff (a : String) (s : Finset String) :
    (({a} : Finset String) ∩ s).Nonempty ↔ a ∈ s := by
  constructor
  · rintro ⟨x, hx⟩
    rw [Finset.mem_inter, Finset.mem_singleton] at hx
    exact hx.1 ▸ hx.2
  · intro h
    exact ⟨a, Finset.mem_inter.mpr ⟨Finset.mem_singleton_self a, h⟩⟩

theorem sb_inter_union_system (T : Finset String) :
    (sbTrigger ∩ (T ∪ {SolixDeviceType.SYSTEM})).Nonempty ↔ (sbTrigger ∩ T).Nonempty := by
  rw [Finset.inter_union_distrib_left]
  have h0 : sbTrigger ∩ ({SolixDeviceType.SYSTEM} : Finset String) = ∅ := by decide
  rw [h0, Finset.union_empty]

theorem au_ne_sys : ApiCategories.device_auto_upgrade ≠ SolixDeviceType.SYSTEM := by decide

theorem au_ne_sb : ApiCategories.device_auto_upgrade ≠ SolixDeviceType.SOLARBANK := by decide

theorem au_not_autoAdd : ApiCategories.device_auto_upgrade ∉ autoAdd := by decide

/-- Characterisation of membership in the expanded exclusion set: the
original members, plus the system type when a system trigger tag is
present, plus the solarbank type when a solarbank subcategory tag is
present, plus the four managed device types when the auto-upgrade tag is
present. -/
theorem mem_expandExcluded (S : Finset String) (x : String) :
    x ∈ expandExcluded S ↔
      x ∈ S ∨ (x = SolixDeviceType.SYSTEM ∧ (sysTrigger ∩ S).Nonempty) ∨
        (x = SolixDeviceType.SOLARBANK ∧ (sbTrigger ∩ S).Nonempty) ∨
        (x ∈ autoAdd ∧ ApiCategories.device_auto_upgrade ∈ S) := by
  by_cases hS : S.Nonempty
  · simp only [expandExcluded, hS, if_true]
    by_cases h1 : (sysTrigger ∩ S).Nonempty
    · simp only [h1, if_true]
      by_cases h2 : (sbTrigger ∩ S).Nonempty
      · rw [if_pos ((sb_inter_union_system S).mpr h2)]
        by_cases h3 : ApiCategories.device_auto_upgrade ∈ S
        · rw [if_pos (by
            rw [singleton_inter_nonempty_iff]
            simp [Finset.mem_union, Finset.mem_singleton, au_ne_sys, au_ne_sb, h3])]
          simp only [Finset.mem_union, Finset.mem_singleton, h1, h2, h3, and_true]
          tauto
        · rw [if_neg (by
            rw [singleton_inter_nonempty_iff]
            simp [Finset.mem_union, Finset.mem_singleton, au_ne_sys, au_ne_sb, h3])]
          simp only [Finset.mem_union, Finset.mem_singleton, h1, h2, h3, and_false,
            and_true]
          tauto
      · rw [if_neg (fun hc => h2 ((sb_inter_union_system S).mp hc))]
        by_cases h3 : ApiCategories.device_auto_upgrade ∈ S
        · rw [if_pos (by
            rw [singleton_inter_nonempty_iff]
            simp [Finset.mem_union, Finset.mem_singleton, au_ne_sys, h3])]
          simp only [Finset.mem_union, Finset.mem_singleton, h1, h2, h3, and_true,
            and_false]
          tauto
        · rw [if_neg (by
            rw [singleton_inter_nonempty_iff]
            simp [Finset.mem_union, Finset.mem_singleton, au_ne_sys, h3])]
          simp only [Finset.mem_union, Finset.mem_singleton, h1, h2, h3, and_true,
            and_false]
          tauto
    · simp only [h1, if_false]
      by_cases h2 : (sbTrigger ∩ S).Nonempty
      · rw [if_pos h2]
        by_cases h3 : ApiCategories.device_auto_upgrade ∈ S
        · rw [if_pos (by
            rw [singleton_inter_nonempty_iff]
            simp [Finset.mem_union, Finset.mem_singleton, au_ne_sb, h3])]
          simp only [Finset.mem_union, Finset.mem_singleton, h1, h2, h3, and_true,
            and_false]
          tauto
        · rw [if_neg (by
            rw [singleton_inter_nonempty_iff]
            simp [Finset.mem_union, Finset.mem_singleton, au_ne_sb, h3])]
          simp only [Finset.mem_union, Finset.mem_singleton, h1, h2, h3, and_true,
            and_false]
          tauto
      · rw [if_neg h2]
        by_cases h3 : ApiCategories.device_auto_upgrade ∈ S
        · rw [if_pos ((singleton_inter_nonempty_iff _ _).mpr h3)]
          simp only [Finset.mem_union, Finset.mem_singleton, h1, h2, h3, and_true,
            and_false]
          tauto
        · rw [if_neg (fun hc => h3 ((singleton_inter_nonempty_iff _ _).mp hc))]
          simp only [h1, h2, h3, and_true, and_false]
          tauto
  · rw [Finset.not_nonempty_iff_eq_empty] at hS
    subst hS
    simp [expandExcluded]

theorem sbTrigger_fresh :
    ∀ y ∈ sbTrigger, y ≠ SolixDeviceType.SYSTEM ∧ y ≠ SolixDeviceType.SOLARBANK ∧
      y ∉ autoAdd := by decide

/-- The expansion never introduces solarbank subcategory tags, so the
solarbank rule fires on the expanded set exactly when it fires on the
original set. -/
theorem sb_inter_expand (S : Finset String) :
    (sbTrigger ∩ expandExcluded S).Nonempty ↔ (sbTrigger ∩ S).Nonempty := by
  constructor
  · rintro ⟨y, hy⟩
    rw [Finset.mem_inter] at hy
    obtain ⟨hyB, hyE⟩ := hy
    obtain ⟨hns, hnb, hnu⟩ := sbTrigger_fresh y hyB
    rw [mem_expandExcluded] at hyE
    rcases hyE with h | ⟨h, _⟩ | ⟨h, _⟩ | ⟨h, _⟩
    · exact ⟨y, Finset.mem_inter.mpr ⟨hyB, h⟩⟩
    · exact absurd h hns
    · exact absurd h hnb
    · exact absurd h hnu
  · rintro ⟨y, hy⟩
    rw [Finset.mem_inter] at hy
    exact ⟨y, Finset.mem_inter.mpr
      ⟨hy.1, (mem_expandExcluded S y).mpr (Or.inl hy.2)⟩⟩

/-- The expansion never introduces the auto-upgrade tag. -/
theorem au_mem_expand (S : Finset String) :
    ApiCategories.device_auto_upgrade ∈ expandExcluded S ↔
      ApiCategories.device_auto_upgrade ∈ S := by
  rw [mem_expandExcluded]
  constructor
  · rintro (h | ⟨h, _⟩ | ⟨h, _⟩ | ⟨h, _⟩)
    · exact h
    · exact absurd h au_ne_sys
    · exact absurd h au_ne_sb
    · exact absurd h au_not_autoAdd
  · exact Or.inl

/-- C3: for every exclusion set, the expansion performed at the start of
reconciliation satisfies: if the set contains any solarbank subcategory
tag (energy, cutoff, fittings, solar_info), the expanded set contains
the solarbank device type; and if the set contains the auto-upgrade tag,
the expanded set contains the solarbank, inverter, PPS and powerpanel
device types. -/
theorem expansion_implies_device_types (S : Finset String) :
    ((ApiCategories.solarbank_energy ∈ S ∨ ApiCategories.solarbank_cutoff ∈ S ∨
        ApiCategories.solarbank_fittings ∈ S ∨ ApiCategories.solarbank_solar_info ∈ S) →
      SolixDeviceType.SOLARBANK ∈ expandExcluded S) ∧
    (ApiCategories.device_auto_upgrade ∈ S →
      SolixDeviceType.SOLARBANK ∈ expandExcluded S ∧
      SolixDeviceType.INVERTER ∈ expandExcluded S ∧
      SolixDeviceType.PPS ∈ expandExcluded S ∧
      SolixDeviceType.POWERPANEL ∈ expandExcluded S) := by
  constructor
  · intro h
    rw [mem_expandExcluded]
    refine Or.inr (Or.inr (Or.inl ⟨rfl, ?_⟩))
    rcases h with h | h | h | h
    · exact ⟨_, Finset.mem_inter.mpr ⟨by decide, h⟩⟩
    · exact ⟨_, Finset.mem_inter.mpr ⟨by decide, h⟩⟩
    · exact ⟨_, Finset.mem_inter.mpr ⟨by decide, h⟩⟩
    · exact ⟨_, Finset.mem_inter.mpr ⟨by decide, h⟩⟩
  · intro h
    refine ⟨?_, ?_, ?_, ?_⟩ <;>
      exact (mem_expandExcluded S _).mpr (Or.inr (Or.inr (Or.inr ⟨by decide, h⟩)))

/-- Witness for C3 at the concrete sets containing the energy
subcategory tag and the auto-upgrade tag. -/
theorem expansion_implies_device_types_witness :
    SolixDeviceType.SOLARBANK ∈ expandExcluded {ApiCategories.solarbank_energy} ∧
    (SolixDeviceType.SOLARBANK ∈ expandExcluded {ApiCategories.device_auto_upgrade} ∧
      SolixDeviceType.INVERTER ∈ expandExcluded {ApiCategories.device_auto_upgrade} ∧
      SolixDeviceType.PPS ∈ expandExcluded {ApiCategories.device_auto_upgrade} ∧
      SolixDeviceType.POWERPANEL ∈ expandExcluded {ApiCategories.device_auto_upgrade}) :=
  ⟨(expansion_implies_device_types {ApiCategories.solarbank_energy}).1
      (Or.inl (by decide)),
    (expansion_implies_device_types {ApiCategories.device_auto_upgrade}).2 (by decide)⟩

/-- Counterexample for C5: the expansion is not idempotent. The set
holding only the solarbank energy subcategory tag expands to a set that
contains the solarbank device type but not the system device type, so a
second expansion adds the system type and yields a strictly larger
set. -/
theorem expansion_not_idempotent_cex :
    expandExcluded (expandExcluded {ApiCategories.solarbank_energy}) ≠
      expandExcluded {ApiCategories.solarbank_energy} ∧
    SolixDeviceType.SOLARBANK ∈ expandExcluded {ApiCategories.solarbank_energy} ∧
    SolixDeviceType.SYSTEM ∉ expandExcluded {ApiCategories.solarbank_energy} := by
  decide

/-- C5 amended: expanding the already-expanded set adds at most the
system device type, and adds it exactly when the expanded set meets the
system trigger set; idempotence fails exactly in that case. -/
theorem expansion_second_pass_adds_system (S : Finset String) :
    expandExcluded (expandExcluded S) =
      expandExcluded S ∪
        (if (sysTrigger ∩ expandExcluded S).Nonempty then {SolixDeviceType.SYSTEM}
          else ∅) := by
  ext x
  rw [mem_expandExcluded]
  by_cases hA : (sysTrigger ∩ expandExcluded S).Nonempty
  · rw [if_pos hA, Finset.mem_union, Finset.mem_singleton]
    constructor
    · rintro (h | ⟨rfl, _⟩ | ⟨rfl, h2⟩ | ⟨hU, h3⟩)
      · exact Or.inl h
      · exact Or.inr rfl
      · exact Or.inl ((mem_expandExcluded S _).mpr
          (Or.inr (Or.inr (Or.inl ⟨rfl, (sb_inter_expand S).mp h2⟩))))
      · exact Or.inl ((mem_expandExcluded S _).mpr
          (Or.inr (Or.inr (Or.inr ⟨hU, (au_mem_expand S).mp h3⟩))))
    · rintro (h | rfl)
      · exact Or.inl h
      · exact Or.inr (Or.inl ⟨rfl, hA⟩)
  · rw [if_neg hA, Finset.union_empty]
    constructor
    · rintro (h | ⟨rfl, hc⟩ | ⟨rfl, h2⟩ | ⟨hU, h3⟩)
      · exact h
      · exact absurd hc hA
      · exact (mem_expandExcluded S _).mpr
          (Or.inr (Or.inr (Or.inl ⟨rfl, (sb_inter_expand S).mp h2⟩)))
      · exact (mem_expandExcluded S _).mpr
          (Or.inr (Or.inr (Or.inr ⟨hU, (au_mem_expand S).mp h3⟩)))
    · exact Or.inl

/-! ### Helper lemmas about the reconciliation scan -/

theorem dictInsert_of_fresh (l : List (String × String)) (k v : String)
    (h : ∀ p ∈ l, p.1 ≠ k) : dictInsert l k v = l ++ [(k, v)] := by
  have hany : List.any l (fun p => p.1 == k) = false := by
    rw [List.any_eq_false]
    intro p hp
    simpa [beq_iff_eq] using h p hp
  simp [dictInsert, hany]

/-- The obsolescence test with the redundant nonemptiness conjunct
dropped: a member of the excluded set forces the set nonempty. -/
theorem isObsolete_eq (apidata : ApiData) (ex : Finset String) (s : String) :
    isObsolete apidata ex s =
      (!serialMem apidata s || typeIsExcluded ex (apiGetType apidata s)) := by
  unfold isObsolete
  cases ht : typeIsExcluded ex (apiGetType apidata s) with
  | false => simp
  | true =>
    have hne : ex.Nonempty := by
      unfold typeIsExcluded at ht
      cases hg : apiGetType apidata s with
      | none => rw [hg] at ht; exact absurd ht (by simp)
      | some t =>
        rw [hg] at ht
        exact ⟨t, by simpa using ht⟩
    simp [hne]

theorem scanDevices_other {u : String} {apidata : ApiData} {ex : Finset String}
    {cfg : CfgEntry} (h : otherB u cfg = true) (devs : List DevEntry)
    (ob : List (String × String)) :
    scanDevices u apidata ex cfg devs ob =
      (Option.map (fun _ => cfg)
          (List.find? (fun d => serialMem apidata d.serial_number) devs), ob) := by
  have h' : (u != "" && u != cfg.unique_id) = true := h
  induction devs generalizing ob with
  | nil => simp [scanDevices]
  | cons d rest ih =>
    cases hf : serialMem apidata d.serial_number with
    | true => simp [scanDevices, h', List.find?_cons, hf]
    | false => simp [scanDevices, h', List.find?_cons, hf, ih]

theorem scanDevices_same {u : String} {apidata : ApiData} {ex : Finset String}
    {cfg : CfgEntry} (h : otherB u cfg = false) (devs : List DevEntry)
    (ob : List (String × String)) :
    scanDevices u apidata ex cfg devs ob = (none, markFold apidata ex devs ob) := by
  have h' : (u != "" && u != cfg.unique_id) = false := h
  induction devs generalizing ob with
  | nil => simp [scanDevices, markFold]
  | cons d rest ih =>
    cases ho : isObsolete apidata ex d.serial_number with
    | true => simp [scanDevices, h', markFold, List.foldl_cons, ho, ih]
    | false => simp [scanDevices, h', markFold, List.foldl_cons, ho, ih]

theorem markFold_eq_append (apidata : ApiData) (ex : Finset String)
    (devs : List DevEntry) :
    ∀ ob : List (String × String),
      (List.map DevEntry.id devs).Nodup →
      (∀ d ∈ devs, ∀ p ∈ ob, p.1 ≠ d.id) →
      markFold apidata ex devs ob =
        ob ++ List.map (fun d => (d.id, d.serial_number))
          (List.filter (fun d => isObsolete apidata ex d.serial_number) devs) := by
  induction devs with
  | nil => intro ob _ _; simp [markFold]
  | cons d rest ih =>
    intro ob hnd hfresh
    rw [List.map_cons, List.nodup_cons] at hnd
    obtain ⟨hdid, hnd'⟩ := hnd
    cases ho : isObsolete apidata ex d.serial_number with
    | true =>
      have hins : dictInsert ob d.id d.serial_number = ob ++ [(d.id, d.serial_number)] :=
        dictInsert_of_fresh _ _ _ (fun p hp => hfresh d (by simp) p hp)
      have hfresh' :
          ∀ d' ∈ rest, ∀ p ∈ ob ++ [(d.id, d.serial_number)], p.1 ≠ d'.id := by
        intro d' hd' p hp
        rcases List.mem_append.mp hp with hmem | hmem
        · exact hfresh d' (by simp [hd']) p hmem
        · have hpp : p = (d.id, d.serial_number) := by simpa using hmem
          subst hpp
          intro hEq
          have hEq' : d.id = d'.id := hEq
          exact hdid (hEq' ▸ List.mem_map_of_mem DevEntry.id hd')
      have hstep : markFold apidata ex (d :: rest) ob =
          markFold apidata ex rest (dictInsert ob d.id d.serial_number) := by
        simp [markFold, List.foldl_cons, ho]
      rw [hstep, hins, ih _ hnd' hfresh']
      simp [List.filter_cons, ho, List.append_assoc]
    | false =>
      have hstep : markFold apidata ex (d :: rest) ob = markFold apidata ex rest ob := by
        simp [markFold, List.foldl_cons, ho]
      rw [hstep, ih _ hnd' (fun d' hd' => hfresh d' (by simp [hd']))]
      simp [List.filter_cons, ho]

/-- The conflict component of the scan is the first matching pair of the
flattened scan order, independently of the obsolete accumulator. -/
theorem scanEntries_fst (u : String) (apidata : ApiData) (ex : Finset String)
    (entries : List (CfgEntry × List DevEntry)) :
    ∀ ob : List (String × String),
      (scanEntries u apidata ex entries ob).1 =
        Option.map Prod.fst
          (List.find? (conflictB u apidata) (entries.flatMap pairF)) := by
  induction entries with
  | nil => intro ob; simp [scanEntries]
  | cons p rest ih =>
    intro ob
    obtain ⟨c, devs⟩ := p
    rw [List.flatMap_cons, List.find?_append]
    cases hc : otherB u c with
    | true =>
      have hfun : (conflictB u apidata ∘ fun d => (c, d)) =
          fun d => serialMem apidata d.serial_number := by
        funext d
        have hcf : conflictB u apidata (c, d) =
            (otherB u c && serialMem apidata d.serial_number) := rfl
        simp [Function.comp, hcf, hc]
      have hmap : List.find? (conflictB u apidata) (pairF (c, devs)) =
          Option.map (fun d => (c, d))
            (List.find? (fun d => serialMem apidata d.serial_number) devs) := by
        unfold pairF
        rw [List.find?_map, hfun]
      cases hf : List.find? (fun d => serialMem apidata d.serial_number) devs with
      | some d =>
        have hscan : scanDevices u apidata ex c devs ob = (some c, ob) := by
          rw [scanDevices_other hc, hf]
          rfl
        simp [scanEntries, hscan, hmap, hf, Option.or]
      | none =>
        have hscan : scanDevices u apidata ex c devs ob = (none, ob) := by
          rw [scanDevices_other hc, hf]
          rfl
        simp [scanEntries, hscan, hmap, hf, Option.or, ih]
    | false =>
      have hnone : List.find? (conflictB u apidata) (pairF (c, devs)) = none := by
        rw [List.find?_eq_none]
        intro q hq
        obtain ⟨d, _, rfl⟩ := List.mem_map.mp hq
        have hcf : conflictB u apidata (c, d) =
            (otherB u c && serialMem apidata d.serial_number) := rfl
        simp [hcf, hc]
      have hscan : scanDevices u apidata ex c devs ob =
          (none, markFold apidata ex devs ob) := scanDevices_same hc devs ob
      simp [scanEntries, hscan, hnone, Option.or, ih]

/-- When no pair of the scan is a cross-account conflict and the registry
ids are unique, the scan returns no conflict and appends exactly the
same-account obsolete devices, in scan order. -/
theorem scanEntries_no_conflict (u : String) (apidata : ApiData) (ex : Finset String)
    (entries : List (CfgEntry × List DevEntry)) :
    ∀ ob : List (String × String),
      (∀ q ∈ entries.flatMap pairF, conflictB u apidata q = false) →
      (List.map (fun q => q.2.id) (entries.flatMap pairF)).Nodup →
      (∀ q ∈ entries.flatMap pairF, ∀ p ∈ ob, p.1 ≠ q.2.id) →
      scanEntries u apidata ex entries ob =
        (none,
          ob ++ List.map (fun q => (q.2.id, q.2.serial_number))
            (List.filter
              (fun q => !otherB u q.1 && isObsolete apidata ex q.2.serial_number)
              (entries.flatMap pairF))) := by
  induction entries with
  | nil => intro ob _ _ _; simp [scanEntries]
  | cons p rest ih =>
    intro ob hnc hnd hfresh
    obtain ⟨c, devs⟩ := p
    rw [List.flatMap_cons] at hnc hnd hfresh ⊢
    rw [List.map_append, List.nodup_append] at hnd
    obtain ⟨hnd1, hnd2, hdisj⟩ := hnd
    have hnc1 : ∀ q ∈ pairF (c, devs), conflictB u apidata q = false :=
      fun q hq => hnc q (List.mem_append.mpr (Or.inl hq))
    have hnc2 : ∀ q ∈ rest.flatMap pairF, conflictB u apidata q = false :=
      fun q hq => hnc q (List.mem_append.mpr (Or.inr hq))
    have hfresh2 : ∀ q ∈ rest.flatMap pairF, ∀ p ∈ ob, p.1 ≠ q.2.id :=
      fun q hq => hfresh q (List.mem_append.mpr (Or.inr hq))
    cases hc : otherB u c with
    | true =>
      have hfnil :
          List.filter
            (fun q => !otherB u q.1 && isObsolete apidata ex q.2.serial_number)
            (pairF (c, devs)) = [] := by
        rw [List.filter_eq_nil_iff]
        intro q hq
        obtain ⟨d, _, rfl⟩ := List.mem_map.mp hq
        simp [hc]
      have hser : ∀ d ∈ devs, serialMem apidata d.serial_number = false := by
        intro d hd
        have hq : (c, d) ∈ pairF (c, devs) :=
          List.mem_map_of_mem (fun d => (c, d)) hd
        have := hnc1 _ hq
        have hcf : conflictB u apidata (c, d) =
            (otherB u c && serialMem apidata d.serial_number) := rfl
        rw [hcf, hc, Bool.true_and] at this
        exact this
      have hf : List.find? (fun d => serialMem apidata d.serial_number) devs = none := by
        rw [List.find?_eq_none]
        intro d hd
        simp [hser d hd]
      have hscan : scanDevices u apidata ex c devs ob = (none, ob) := by
        rw [scanDevices_other hc, hf]
        rfl
      rw [List.filter_append, hfnil, List.nil_append]
      simp only [scanEntries, hscan]
      exact ih ob hnc2 hnd2 hfresh2
    | false =>
      have hscan : scanDevices u apidata ex c devs ob =
          (none, markFold apidata ex devs ob) := scanDevices_same hc devs ob
      have hids : List.map (fun q => q.2.id) (pairF (c, devs)) =
          List.map DevEntry.id devs := by
        unfold pairF
        rw [List.map_map]
        rfl
      have hnddevs : (List.map DevEntry.id devs).Nodup := hids ▸ hnd1
      have hfreshdevs : ∀ d ∈ devs, ∀ p ∈ ob, p.1 ≠ d.id := by
        intro d hd
        exact hfresh (c, d)
          (List.mem_append.mpr (Or.inl (List.mem_map_of_mem (fun d => (c, d)) hd)))
      have hmark : markFold apidata ex devs ob =
          ob ++ List.map (fun d => (d.id, d.serial_number))
            (List.filter (fun d => isObsolete apidata ex d.serial_number) devs) :=
        markFold_eq_append apidata ex devs ob hnddevs hfreshdevs
      have hfilter :
          List.filter
            (fun q => !otherB u q.1 && isObsolete apidata ex q.2.serial_number)
            (pairF (c, devs)) =
          List.map (fun d => (c, d))
            (List.filter (fun d => isObsolete apidata ex d.serial_number) devs) := by
        unfold pairF
        rw [List.filter_map]
        congr 1
        apply List.filter_congr
        intro d _
        simp [Function.comp, hc]
      have hfresh' :
          ∀ q ∈ rest.flatMap pairF, ∀ p ∈ markFold apidata ex devs ob, p.1 ≠ q.2.id := by
        intro q hq p hp
        rw [hmark] at hp
        rcases List.mem_append.mp hp with hmem | hmem
        · exact hfresh2 q hq p hmem
        · obtain ⟨d, hd, rfl⟩ := List.mem_map.mp hmem
          have hd' : d ∈ devs := List.mem_of_mem_filter hd
          intro hEq
          have hEq' : d.id = q.2.id := hEq
          have h1 : d.id ∈ List.map (fun q => q.2.id) (pairF (c, devs)) := by
            rw [hids]
            exact List.mem_map_of_mem DevEntry.id hd'
          have h2 : d.id ∈ List.map (fun q => q.2.id) (rest.flatMap pairF) := by
            rw [hEq']
            exact List.mem_map_of_mem (fun q => q.2.id) hq
          exact hdisj h1 h2
      have hrec := ih (markFold apidata ex devs ob) hnc2 hnd2 hfresh'
      simp only [scanEntries, hscan]
      rw [hrec, hmark, List.filter_append, hfilter]
      rw [List.map_append, List.map_map, List.append_assoc]
      rfl

theorem str_beq_comm (a b : String) : (a == b) = (b == a) := by
  by_cases h : a = b
  · subst h; rfl
  · rw [beq_eq_false_iff_ne.mpr h, beq_eq_false_iff_ne.mpr (Ne.symm h)]

/-- The routine is the match on the scan of the entry pairs, with the
conflict branch dropping all markings. -/
theorem check_eq_match (st : HassState) (i : CredInput) (apidata : ApiData)
    (excluded : Option (Finset String)) :
    async_check_and_remove_devices st i apidata excluded =
      (match scanEntries (usernameOf i) apidata (expandExcluded (excluded.getD ∅))
          (entryPairs st) [] with
        | (some c, _) => CheckResult.mk (some c) []
        | (none, ob) => CheckResult.mk none ob) := rfl

/-- The conflict test in terms of its two claim-level conjuncts, for a
non-empty candidate username. -/
theorem conflictB_eq_true_iff {u : String} (hu : u ≠ "") (apidata : ApiData)
    (q : CfgEntry × DevEntry) :
    conflictB u apidata q = true ↔
      (q.1.unique_id ≠ u ∧ serialMem apidata q.2.serial_number = true) := by
  unfold conflictB
  simp only [Bool.and_eq_true, bne_iff_ne]
  constructor
  · rintro ⟨⟨-, hne⟩, hser⟩
    exact ⟨Ne.symm hne, hser⟩
  · rintro ⟨hne, hser⟩
    exact ⟨⟨hu, Ne.symm hne⟩, hser⟩

/-- C1: for every call of the reconciliation routine with a non-empty
candidate username, a configuration entry is returned if and only if
some entry whose unique id differs from the lower-cased candidate
username has a registered device whose serial number is a key of the
fetched device and site data; the entry returned is the first such match
in scan order (entries in store order, devices in registry order), the
scan stops there, and no removal is performed in that case. -/
theorem reconcile_conflict_first_match (st : HassState) (i : CredInput)
    (apidata : ApiData) (excluded : Option (Finset String))
    (hu : usernameOf i ≠ "") :
    ((async_check_and_remove_devices st i apidata excluded).conflict =
        Option.map Prod.fst
          (List.find? (conflictB (usernameOf i) apidata) (scanPairs st))) ∧
    ((async_check_and_remove_devices st i apidata excluded).conflict ≠ none ↔
      ∃ q ∈ scanPairs st,
        q.1.unique_id ≠ usernameOf i ∧ serialMem apidata q.2.serial_number = true) ∧
    ((async_check_and_remove_devices st i apidata excluded).conflict ≠ none →
      (async_check_and_remove_devices st i apidata excluded).removed = []) := by
  have hfst : (scanEntries (usernameOf i) apidata (expandExcluded (excluded.getD ∅))
        (entryPairs st) []).1 =
      Option.map Prod.fst
        (List.find? (conflictB (usernameOf i) apidata) (scanPairs st)) :=
    scanEntries_fst (usernameOf i) apidata (expandExcluded (excluded.getD ∅))
      (entryPairs st) []
  rw [check_eq_match]
  cases hres : scanEntries (usernameOf i) apidata (expandExcluded (excluded.getD ∅))
      (entryPairs st) [] with
  | mk conf ob =>
    rw [hres] at hfst
    cases conf with
    | none =>
      refine ⟨hfst, ?_, fun hne => absurd rfl hne⟩
      have hfind : List.find? (conflictB (usernameOf i) apidata) (scanPairs st)
          = none := Option.map_eq_none'.mp hfst.symm
      constructor
      · intro hne
        exact absurd rfl hne
      · rintro ⟨q, hq, hprops⟩
        have hq' := List.find?_eq_none.mp hfind q hq
        rw [Bool.not_eq_true] at hq'
        rw [(conflictB_eq_true_iff hu apidata q).mpr hprops] at hq'
        cases hq'
    | some c =>
      refine ⟨hfst, ?_, fun _ => rfl⟩
      constructor
      · intro _
        cases hfind : List.find? (conflictB (usernameOf i) apidata) (scanPairs st) with
        | none => rw [hfind] at hfst; cases hfst
        | some q0 =>
          exact ⟨q0, List.mem_of_find?_eq_some hfind,
            (conflictB_eq_true_iff hu apidata q0).mp (List.find?_some hfind)⟩
      · intro _
        intro hcon
        cases hcon

/-- Witness for C1: a store with one same-account entry and one entry of
another account whose device serial is in the fetched data; the routine
returns the other entry, the first match of the scan, and removes
nothing. -/
theorem reconcile_conflict_first_match_witness :
    usernameOf (CredInput.mk (some "a@x.com") "pw" "DE" true) ≠ "" ∧
    ((async_check_and_remove_devices
          (HassState.mk
            [CfgEntry.mk "1" "a@x.com" "Account A", CfgEntry.mk "2" "b@y.com" "Account B"]
            [("1", [DevEntry.mk "d1" "SB1"]), ("2", [DevEntry.mk "d2" "SX1"])])
          (CredInput.mk (some "a@x.com") "pw" "DE" true)
          [("SX1", ApiRecord.mk (some "solarbank"))] none).conflict =
        Option.map Prod.fst
          (List.find?
            (conflictB (usernameOf (CredInput.mk (some "a@x.com") "pw" "DE" true))
              [("SX1", ApiRecord.mk (some "solarbank"))])
            (scanPairs
              (HassState.mk
                [CfgEntry.mk "1" "a@x.com" "Account A",
                  CfgEntry.mk "2" "b@y.com" "Account B"]
                [("1", [DevEntry.mk "d1" "SB1"]), ("2", [DevEntry.mk "d2" "SX1"])])))) :=
  ⟨by decide,
    (reconcile_conflict_first_match
      (HassState.mk
        [CfgEntry.mk "1" "a@x.com" "Account A", CfgEntry.mk "2" "b@y.com" "Account B"]
        [("1", [DevEntry.mk "d1" "SB1"]), ("2", [DevEntry.mk "d2" "SX1"])])
      (CredInput.mk (some "a@x.com") "pw" "DE" true)
      [("SX1", ApiRecord.mk (some "solarbank"))] none (by decide)).1⟩

/-- Shared backbone for the conflict-free outcomes: with unique registry
ids and no conflicting pair, the routine returns no entry and removes
exactly the filtered pairs, in scan order. -/
theorem check_no_conflict_general (st : HassState) (i : CredInput)
    (apidata : ApiData) (excluded : Option (Finset String))
    (hnd : (List.map (fun q => q.2.id) (scanPairs st)).Nodup)
    (hncB : ∀ q ∈ scanPairs st, conflictB (usernameOf i) apidata q = false) :
    (async_check_and_remove_devices st i apidata excluded).conflict = none ∧
    (async_check_and_remove_devices st i apidata excluded).removed =
      List.map (fun q => (q.2.id, q.2.serial_number))
        (List.filter
          (fun q => !otherB (usernameOf i) q.1 &&
            isObsolete apidata (expandExcluded (excluded.getD ∅)) q.2.serial_number)
          (scanPairs st)) := by
  have hsc : scanEntries (usernameOf i) apidata (expandExcluded (excluded.getD ∅))
      (entryPairs st) [] =
      (none,
        [] ++ List.map (fun q => (q.2.id, q.2.serial_number))
          (List.filter
            (fun q => !otherB (usernameOf i) q.1 &&
              isObsolete apidata (expandExcluded (excluded.getD ∅)) q.2.serial_number)
            (scanPairs st))) :=
    scanEntries_no_conflict (usernameOf i) apidata (expandExcluded (excluded.getD ∅))
      (entryPairs st) [] hncB hnd
      (fun q _ p hp => absurd hp (List.not_mem_nil p))
  rw [check_eq_match, hsc]
  exact ⟨rfl, (List.nil_append _).symm⟩

/-- The filter predicate of the conflict-free outcome in its claim-level
form, for a non-empty candidate username: same account and (serial
absent or recorded type excluded). -/
theorem obsolete_pred_eq {u : String} (hu : u ≠ "") (apidata : ApiData)
    (ex : Finset String) (q : CfgEntry × DevEntry) :
    (!otherB u q.1 && isObsolete apidata ex q.2.serial_number) =
      ((q.1.unique_id == u) &&
        (!serialMem apidata q.2.serial_number ||
          typeIsExcluded ex (apiGetType apidata q.2.serial_number))) := by
  rw [isObsolete_eq]
  congr 1
  unfold otherB
  have h1 : (u != "") = true := by rwa [bne_iff_ne]
  rw [h1, Bool.true_and, str_beq_comm q.1.unique_id u]
  cases hbe : u == q.1.unique_id <;> simp [bne, hbe]

/-- C2: with a non-empty candidate username and no cross-account
conflict, the routine returns nothing and removes a same-account device
exactly when its serial number is absent from the fetched data or its
recorded type lies in the expanded exclusion set, in scan order. -/
theorem reconcile_no_conflict_marks (st : HassState) (i : CredInput)
    (apidata : ApiData) (excluded : Option (Finset String))
    (hu : usernameOf i ≠ "")
    (hnd : (List.map (fun q => q.2.id) (scanPairs st)).Nodup)
    (hnc : ∀ q ∈ scanPairs st,
      ¬(q.1.unique_id ≠ usernameOf i ∧ serialMem apidata q.2.serial_number = true)) :
    (async_check_and_remove_devices st i apidata excluded).conflict = none ∧
    (async_check_and_remove_devices st i apidata excluded).removed =
      List.map (fun q => (q.2.id, q.2.serial_number))
        (List.filter
          (fun q => (q.1.unique_id == usernameOf i) &&
            (!serialMem apidata q.2.serial_number ||
              typeIsExcluded (expandExcluded (excluded.getD ∅))
                (apiGetType apidata q.2.serial_number)))
          (scanPairs st)) := by
  have hncB : ∀ q ∈ scanPairs st, conflictB (usernameOf i) apidata q = false := by
    intro q hq
    cases hcq : conflictB (usernameOf i) apidata q with
    | false => rfl
    | true => exact absurd ((conflictB_eq_true_iff hu apidata q).mp hcq) (hnc q hq)
  obtain ⟨h1, h2⟩ := check_no_conflict_general st i apidata excluded hnd hncB
  refine ⟨h1, ?_⟩
  rw [h2]
  congr 1
  apply List.filter_congr
  intro q _
  exact obsolete_pred_eq hu apidata _ q

/-- Witness for C2: the A-B-C scenario of the claim. Device dA is
present with a non-excluded type, dB is absent, dC is present with the
excluded solarbank type; dB and dC are removed in that order and dA is
untouched. -/
theorem reconcile_no_conflict_marks_witness :
    usernameOf credA ≠ "" ∧
    ((async_check_and_remove_devices stABC credA apiABC
          (some {SolixDeviceType.SOLARBANK})).conflict = none ∧
      (async_check_and_remove_devices stABC credA apiABC
          (some {SolixDeviceType.SOLARBANK})).removed =
        List.map (fun q => (q.2.id, q.2.serial_number))
          (List.filter
            (fun q => (q.1.unique_id == usernameOf credA) &&
              (!serialMem apiABC q.2.serial_number ||
                typeIsExcluded
                  (expandExcluded ((some {SolixDeviceType.SOLARBANK} :
                      Option (Finset String)).getD ∅))
                  (apiGetType apiABC q.2.serial_number)))
            (scanPairs stABC))) ∧
    (async_check_and_remove_devices stABC credA apiABC
        (some {SolixDeviceType.SOLARBANK})).removed = [("dB", "SB"), ("dC", "SC")] :=
  ⟨by decide,
    reconcile_no_conflict_marks stABC credA apiABC (some {SolixDeviceType.SOLARBANK})
      (by decide) (by decide) (by decide),
    by decide⟩

/-- C10: with an empty or missing candidate username, the routine never
returns a conflict, and every registered device of every entry of the
domain, entries of other accounts included, undergoes the same-account
absence or exclusion test. -/
theorem reconcile_empty_username (st : HassState) (i : CredInput)
    (apidata : ApiData) (excluded : Option (Finset String))
    (hu : usernameOf i = "")
    (hnd : (List.map (fun q => q.2.id) (scanPairs st)).Nodup) :
    (async_check_and_remove_devices st i apidata excluded).conflict = none ∧
    (async_check_and_remove_devices st i apidata excluded).removed =
      List.map (fun q => (q.2.id, q.2.serial_number))
        (List.filter
          (fun q => !serialMem apidata q.2.serial_number ||
            typeIsExcluded (expandExcluded (excluded.getD ∅))
              (apiGetType apidata q.2.serial_number))
          (scanPairs st)) := by
  have hncB : ∀ q ∈ scanPairs st, conflictB (usernameOf i) apidata q = false := by
    intro q _
    unfold conflictB
    rw [hu]
    rfl
  obtain ⟨h1, h2⟩ := check_no_conflict_general st i apidata excluded hnd hncB
  refine ⟨h1, ?_⟩
  rw [h2]
  congr 1
  apply List.filter_congr
  intro q _
  rw [isObsolete_eq]
  unfold otherB
  rw [hu]
  rfl

/-- Witness for C10: a missing username lets the routine treat the other
account entry as the same account and prune its absent device. -/
theorem reconcile_empty_username_witness :
    usernameOf credNone = "" ∧
    ((async_check_and_remove_devices stOther credNone [] none).conflict = none ∧
      (async_check_and_remove_devices stOther credNone [] none).removed =
        List.map (fun q => (q.2.id, q.2.serial_number))
          (List.filter
            (fun q => !serialMem ([] : ApiData) q.2.serial_number ||
              typeIsExcluded (expandExcluded ((none : Option (Finset String)).getD ∅))
                (apiGetType ([] : ApiData) q.2.serial_number))
            (scanPairs stOther))) ∧
    (async_check_and_remove_devices stOther credNone [] none).removed = [("dX", "SX")] :=
  ⟨by decide,
    reconcile_empty_username stOther credNone [] none (by decide) (by decide),
    by decide⟩

/-- Counterexample for C4: in the cross-account scenario the scan marks
the same-account device d1 obsolete (serial SB1 is absent from the
fetched data) before finding the conflict on the other account entry,
but the early return skips the removal loop, so nothing is removed. -/
theorem marked_device_not_removed_cex :
    (scanEntries (usernameOf credA) apiCross
        (expandExcluded ((none : Option (Finset String)).getD ∅))
        (entryPairs stCross) []) = (some entB, [("d1", "SB1")]) ∧
    (async_check_and_remove_devices stCross credA apiCross none).conflict =
      some entB ∧
    (async_check_and_remove_devices stCross credA apiCross none).removed = [] := by
  decide

/-- C4 amended: every device marked obsolete is removed, in the
encounter order of the scan, provided the scan finds no cross-account
conflict; when a conflict is found the routine returns it immediately
and performs no removal at all, abandoning the markings made so far. -/
theorem reconcile_removal_on_completion (st : HassState) (i : CredInput)
    (apidata : ApiData) (excluded : Option (Finset String))
    (hnd : (List.map (fun q => q.2.id) (scanPairs st)).Nodup) :
    ((∀ q ∈ scanPairs st, conflictB (usernameOf i) apidata q = false) →
      (async_check_and_remove_devices st i apidata excluded).conflict = none ∧
      (async_check_and_remove_devices st i apidata excluded).removed =
        List.map (fun q => (q.2.id, q.2.serial_number))
          (List.filter
            (fun q => !otherB (usernameOf i) q.1 &&
              isObsolete apidata (expandExcluded (excluded.getD ∅))
                q.2.serial_number)
            (scanPairs st))) ∧
    (∀ c, (async_check_and_remove_devices st i apidata excluded).conflict = some c →
      (async_check_and_remove_devices st i apidata excluded).removed = []) := by
  constructor
  · intro hncB
    exact check_no_conflict_general st i apidata excluded hnd hncB
  · intro c
    rw [check_eq_match]
    cases hres : scanEntries (usernameOf i) apidata (expandExcluded (excluded.getD ∅))
        (entryPairs st) [] with
    | mk conf ob =>
      cases conf with
      | none => intro hcon; cases hcon
      | some x => intro _; rfl

/-- Witness for C4 amended, at the conflict scenario: the returned
conflict forces an empty removal sequence. -/
theorem reconcile_removal_on_completion_witness :
    ((List.map (fun q => q.2.id) (scanPairs stCross)).Nodup) ∧
    (async_check_and_remove_devices stCross credA apiCross none).removed = [] :=
  ⟨by decide,
    (reconcile_removal_on_completion stCross credA apiCross none (by decide)).2
      entB (by decide)⟩

/-- C6 divergence: submitting credentials whose lower-cased username
equals the unique id of an existing entry does not abort the flow. The
AbortFlow exception raised by the host helper inside the try block is
caught by the broad except clause of line 174 (AbortFlow derives from
Exception), so the submission ends in the redisplayed credential form
with the unknown error category. No entry is created and authentication
is not attempted, but the distinct abort outcome the spec requires never
happens. -/
theorem duplicate_username_not_aborted :
    async_step_user envDup (some credDup) =
      StepUserOut.mk
        (ConfigFlowResult.showForm "user" [("base", "unknown")]
          (basePlaceholders ++
            [(ERROR_DETAIL, "Exception AbortFlow: already_configured")]))
        none false false := by
  decide

/-- C7: a wizard run that authenticates, finds no conflict and submits a
valid options bag creates the entry titled with the account display
name, stores the submitted credentials plus the fixed examples folder
path, and stores the submitted options bag; when no client is at hand
the title falls back to the stored username. -/
theorem wizard_success_entry (env : FlowEnv) (i : CredInput) (o : OptionsBag)
    (client : Client)
    (hterms : i.acceptTerms = true)
    (hnew : (List.any env.hass.cfg_entries fun c => c.unique_id == usernameOf i)
      = false)
    (hauth : env.authResult = Except.ok client)
    (hsites : env.sitesError = none)
    (hnoconf : (async_check_and_remove_devices env.hass i env.apidata none).conflict
      = none)
    (hopts : (testfolderTruthy o || !o.testmode) = true) :
    runWizard env i o =
      ConfigFlowResult.createEntry (some client.nickname) (dataWithExamples i) o ∧
    (∀ st : FlowState, st.client = none →
      async_step_user_options st (some o) =
        ConfigFlowResult.createEntry st.data.username st.data o) := by
  rcases hchk : async_check_and_remove_devices env.hass i env.apidata none with
    ⟨conf, rem⟩
  rw [hchk] at hnoconf
  have hconf : conf = none := hnoconf
  subst hconf
  have hstep : async_step_user env (some i) =
      StepUserOut.mk (ConfigFlowResult.showForm "user_options" [] [])
        (some (FlowState.mk (some client) (dataWithExamples i))) true true := by
    simp [async_step_user, hterms, hnew, hauth, hsites, hchk]
  constructor
  · unfold runWizard
    rw [hstep]
    simp [async_step_user_options, hopts]
  · intro st hst
    simp [async_step_user_options, hopts, hst]

/-- Witness for C7 at a fresh account with valid credentials and test
mode off. -/
theorem wizard_success_entry_witness :
    (testfolderTruthy optsOff || !optsOff.testmode) = true ∧
    runWizard envOk credA optsOff =
      ConfigFlowResult.createEntry (some "Nick Name") (dataWithExamples credA)
        optsOff :=
  ⟨by decide,
    (wizard_success_entry envOk credA optsOff (Client.mk "Nick Name") rfl (by decide)
      rfl rfl (by decide) (by decide)).1⟩

/-- C8: in both the wizard options step and the options editor, a
submission with test mode enabled and no test folder yields the
folder_invalid field error on the test folder field and redisplays the
form without persisting anything; any other submission persists the
submitted bag. -/
theorem options_testfolder_validation (st : FlowState) (cur : OptionsBag)
    (o : OptionsBag) :
    ((o.testmode = true ∧ testfolderTruthy o = false) →
      async_step_user_options st (some o) =
        ConfigFlowResult.showForm "user_options" [(TESTFOLDER, "folder_invalid")] [] ∧
      optionsFlow_step_init cur (some o) =
        OptionsFlowResult.showForm "init" [(TESTFOLDER, "folder_invalid")]) ∧
    (¬(o.testmode = true ∧ testfolderTruthy o = false) →
      (∃ t, async_step_user_options st (some o) =
        ConfigFlowResult.createEntry t st.data o) ∧
      optionsFlow_step_init cur (some o) = OptionsFlowResult.createEntry "" o) := by
  constructor
  · rintro ⟨hm, hf⟩
    have hcond : (testfolderTruthy o || !o.testmode) = false := by rw [hm, hf]; rfl
    exact ⟨by simp [async_step_user_options, hcond],
      by simp [optionsFlow_step_init, hcond]⟩
  · intro hn
    have hcond : (testfolderTruthy o || !o.testmode) = true := by
      cases hm : o.testmode
      · simp
      · cases hf : testfolderTruthy o
        · exact absurd ⟨hm, hf⟩ hn
        · simp [hf]
    refine ⟨⟨match st.client with
      | some c => some c.nickname
      | none => st.data.username, ?_⟩, ?_⟩
    · simp [async_step_user_options, hcond]
    · simp [optionsFlow_step_init, hcond]

/-- Witness for C8: the options editor rejects test mode without a
folder. -/
theorem options_testfolder_validation_witness :
    (optsBad.testmode = true ∧ testfolderTruthy optsBad = false) ∧
    optionsFlow_step_init optsOff (some optsBad) =
      OptionsFlowResult.showForm "init" [(TESTFOLDER, "folder_invalid")] :=
  ⟨by decide,
    ((options_testfolder_validation (FlowState.mk none (dataWithExamples credA))
        optsOff optsBad).1 (by decide)).2⟩

/-- C9: when authentication or the site fetch raises, the three
distinguished client exceptions map to the three distinct error
categories auth, connection and exceeded, every other exception maps to
the catch-all unknown category, the human-readable detail is placed into
the form placeholders, and the credential form is redisplayed, never
terminating the flow. -/
theorem auth_failure_redisplays (env : FlowEnv) (i : CredInput) (e : ApiExc)
    (hterms : i.acceptTerms = true)
    (hnew : (List.any env.hass.cfg_entries fun c => c.unique_id == usernameOf i)
      = false)
    (hfail : env.authResult = Except.error e ∨
      (∃ c, env.authResult = Except.ok c ∧ env.sitesError = some e)) :
    ((async_step_user env (some i)).result =
        ConfigFlowResult.showForm "user" [("base", excErrorKey e)]
          (basePlaceholders ++ [(ERROR_DETAIL, excDetail e)]) ∧
      (async_step_user env (some i)).next = none) ∧
    (∀ m, excErrorKey (ApiExc.authError m) = "auth" ∧
      excErrorKey (ApiExc.commError m) = "connection" ∧
      excErrorKey (ApiExc.retryError m) = "exceeded" ∧
      excErrorKey (ApiExc.clientError m) = "unknown" ∧
      excErrorKey (ApiExc.abortFlow m) = "unknown" ∧
      excErrorKey (ApiExc.otherError m) = "unknown") ∧
    (∀ m m2, excErrorKey (ApiExc.authError m) ≠ excErrorKey (ApiExc.commError m2) ∧
      excErrorKey (ApiExc.authError m) ≠ excErrorKey (ApiExc.retryError m2) ∧
      excErrorKey (ApiExc.commError m) ≠ excErrorKey (ApiExc.retryError m2)) := by
  refine ⟨?_, fun m => ⟨rfl, rfl, rfl, rfl, rfl, rfl⟩,
    fun m m2 => ⟨by show "auth" ≠ "connection"; decide,
      by show "auth" ≠ "exceeded"; decide,
      by show "connection" ≠ "exceeded"; decide⟩⟩
  rcases hfail with hfa | ⟨c, hok, hsite⟩
  · constructor <;> simp [async_step_user, hterms, hnew, hfa, errorForm]
  · constructor <;> simp [async_step_user, hterms, hnew, hok, hsite, errorForm]

/-- Witness for C9 at a failing authentication with an authentication
error. -/
theorem auth_failure_redisplays_witness :
    (async_step_user envAuthFail (some credA)).result =
      ConfigFlowResult.showForm "user" [("base", "auth")]
        (basePlaceholders ++ [(ERROR_DETAIL, "bad credentials")]) ∧
    (async_step_user envAuthFail (some credA)).next = none :=
  ((auth_failure_redisplays envAuthFail credA (ApiExc.authError "bad credentials")
      rfl (by decide) (Or.inl rfl)).1)

end AnkerSolix
